import Mathlib

/-!
Verification development for the finstream-co repository.

The repository has three source files:
* `src/sysbus/src/lib.rs` — the `SysEvent` enum with
  `#[derive(Serialize, Deserialize)]` and `#[serde(tag = "type", content = "payload")]`
  (serde adjacently-tagged encoding over JSON values), plus a logging `init`.
* `src/logger/src/reload.rs` — a process-wide `RwLock<Option<ReloadHandle>>`
  cell (`RELOAD_HANDLE`) with a setter `set_reload_handle`.
* `src/finstream/src/main.rs` — the bootstrap: builds a
  `tokio::sync::broadcast` channel of capacity 1024, binds the sender to an
  unused local, lets the sole receiver sit unread, and calls the subsystem
  `init` functions (which take no arguments).

The embedding below models JSON as a value tree (numbers as `Int`; the claims
under study concern tags and field structure, not numeric precision), the
serde adjacently-tagged wire format for `SysEvent`, the tokio broadcast
channel semantics that `main.rs` instantiates, the reload cell, and the
startup sequence of `main`.
-/

/-- Json models `serde_json::Value`: null, booleans, numbers, strings,
arrays and string-keyed objects (an object is an association list). -/
inductive Json where
  | null : Json
  | bool (b : Bool) : Json
  | num (n : Int) : Json
  | str (s : String) : Json
  | arr (elems : List Json) : Json
  | obj (fields : List (String × Json)) : Json

/-- SysEvent mirrors the Rust enum `SysEvent` in `src/sysbus/src/lib.rs`:
a unit variant, a newtype variant over `String`, a struct variant with an
optional field, and a newtype variant over `serde_json::Value`. -/
inductive SysEvent where
  | ConfigReloaded : SysEvent
  | MarketStatus (label : String) : SysEvent
  | AssetTransition (id state : String) (reason : Option String) : SysEvent
  | TelemetryTick (value : Json) : SysEvent

/-- serOptStr models serde's serialization of `Option<String>`:
`None` becomes JSON null and `Some r` becomes the string. -/
def serOptStr : Option String → Json
  | none => Json.null
  | some r => Json.str r

/-- serialize models the serde-derived `Serialize` impl for `SysEvent` under
`#[serde(tag = "type", content = "payload")]`: a unit variant emits only the
tag field, every other variant emits the tag field followed by the content
field holding the variant payload (struct-variant fields in declaration
order, `Option` fields as null when absent). -/
def serialize : SysEvent → Json
  | SysEvent.ConfigReloaded =>
      Json.obj [("type", Json.str "ConfigReloaded")]
  | SysEvent.MarketStatus label =>
      Json.obj [("type", Json.str "MarketStatus"), ("payload", Json.str label)]
  | SysEvent.AssetTransition id state reason =>
      Json.obj [("type", Json.str "AssetTransition"),
        ("payload", Json.obj [("id", Json.str id), ("state", Json.str state),
          ("reason", serOptStr reason)])]
  | SysEvent.TelemetryTick value =>
      Json.obj [("type", Json.str "TelemetryTick"), ("payload", value)]

/-- DeError models the deserialization error cases serde produces for this
enum: a missing required field, an unrecognized variant tag, a duplicated
field, and a value of the wrong type (carrying the expected type). -/
inductive DeError where
  | missingField (name : String) : DeError
  | unknownVariant (tag : String) : DeError
  | duplicateField (name : String) : DeError
  | invalidType (expected : String) : DeError
deriving DecidableEq, Repr

/-- collectField models serde's map-visitor treatment of one known field:
scan the entries in order, record the first value bound to the key, error on
a duplicate occurrence of the key, and ignore every other key. Returns
`Except.ok none` when the key never occurs. -/
def collectField (kvs : List (String × Json)) (key : String) :
    Except DeError (Option Json) :=
  kvs.foldl
    (fun acc kv =>
      match acc with
      | Except.error e => Except.error e
      | Except.ok found =>
          if kv.1 = key then
            match found with
            | some _ => Except.error (DeError.duplicateField key)
            | none => Except.ok (some kv.2)
          else Except.ok found)
    (Except.ok none)

/-- deAssetPayload models the serde-derived deserialization of the
`AssetTransition` struct-variant payload: required string fields `id` and
`state`, optional field `reason` (absent or null both give `None`), unknown
fields ignored (`deny_unknown_fields` is not set). -/
def deAssetPayload (pkvs : List (String × Json)) : Except DeError SysEvent := do
  let idOpt ← collectField pkvs "id"
  let stOpt ← collectField pkvs "state"
  let rsOpt ← collectField pkvs "reason"
  match idOpt with
  | none => Except.error (DeError.missingField "id")
  | some (Json.str id) =>
      match stOpt with
      | none => Except.error (DeError.missingField "state")
      | some (Json.str state) =>
          match rsOpt with
          | none => Except.ok (SysEvent.AssetTransition id state none)
          | some Json.null => Except.ok (SysEvent.AssetTransition id state none)
          | some (Json.str r) => Except.ok (SysEvent.AssetTransition id state (some r))
          | some _ => Except.error (DeError.invalidType "string")
      | some _ => Except.error (DeError.invalidType "string")
  | some _ => Except.error (DeError.invalidType "string")

/-- deVariant models serde's dispatch on the recognized tag with the
optional content value: the unit variant accepts an absent or null payload;
newtype and struct variants require a payload of the right shape and report
`missingField "payload"` when the content field is absent; any tag outside
the four declared variants is an unknown-variant error naming the tag. -/
def deVariant (tag : String) (payload : Option Json) : Except DeError SysEvent :=
  if tag = "ConfigReloaded" then
    match payload with
    | none => Except.ok SysEvent.ConfigReloaded
    | some Json.null => Except.ok SysEvent.ConfigReloaded
    | some _ => Except.error (DeError.invalidType "unit")
  else if tag = "MarketStatus" then
    match payload with
    | none => Except.error (DeError.missingField "payload")
    | some (Json.str s) => Except.ok (SysEvent.MarketStatus s)
    | some _ => Except.error (DeError.invalidType "string")
  else if tag = "AssetTransition" then
    match payload with
    | none => Except.error (DeError.missingField "payload")
    | some (Json.obj pkvs) => deAssetPayload pkvs
    | some _ => Except.error (DeError.invalidType "map")
  else if tag = "TelemetryTick" then
    match payload with
    | none => Except.error (DeError.missingField "payload")
    | some v => Except.ok (SysEvent.TelemetryTick v)
  else Except.error (DeError.unknownVariant tag)

/-- deserialize models the serde-derived `Deserialize` impl for `SysEvent`
under adjacent tagging: the input must be a JSON object; the `type` and
`payload` entries are collected in any order with duplicate detection and
all other top-level keys ignored; a missing `type` is an error, a
non-string tag is a type error, and otherwise dispatch goes to the tagged
variant. -/
def deserialize (j : Json) : Except DeError SysEvent :=
  match j with
  | Json.obj kvs => do
      let tagOpt ← collectField kvs "type"
      let payloadOpt ← collectField kvs "payload"
      match tagOpt with
      | none => Except.error (DeError.missingField "type")
      | some (Json.str tag) => deVariant tag payloadOpt
      | some _ => Except.error (DeError.invalidType "string")
  | _ => Except.error (DeError.invalidType "map")

/-- tagOf gives the wire tag of each `SysEvent` variant. -/
def tagOf : SysEvent → String
  | SysEvent.ConfigReloaded => "ConfigReloaded"
  | SysEvent.MarketStatus _ => "MarketStatus"
  | SysEvent.AssetTransition _ _ _ => "AssetTransition"
  | SysEvent.TelemetryTick _ => "TelemetryTick"

/-- hasField tests whether a JSON value is an object containing the key. -/
def hasField (j : Json) (key : String) : Bool :=
  match j with
  | Json.obj kvs => kvs.any (fun kv => kv.1 = key)
  | _ => false

/-- isTagOrFieldError classifies the two error kinds named by the spec:
an unrecognized tag or a missing required field. -/
def DeError.isTagOrFieldError : DeError → Bool
  | DeError.unknownVariant _ => true
  | DeError.missingField _ => true
  | _ => false

/-- set_reload_handle mirrors `set_reload_handle` in
`src/logger/src/reload.rs`: it overwrites the cell contents with
`Some handle`, whatever the previous contents were. The cell contents are
the value inside the `RwLock`; the handle type is kept abstract. -/
def set_reload_handle (cell : Option α) (handle : α) : Option α :=
  let _ := cell
  some handle

/-- RELOAD_HANDLE_initial mirrors the `lazy_static` initializer
`Arc::new(RwLock::new(None))` of `RELOAD_HANDLE` in
`src/logger/src/reload.rs`: the cell starts empty. -/
def RELOAD_HANDLE_initial (α : Type) : Option α := none

/-- getReloadHandle models reading the public `RELOAD_HANDLE` cell
(`RELOAD_HANDLE.read().clone()` — the spec's `get()`): it returns the
current cell contents. Modelled from the spec: no named getter exists in
`src/logger/src/reload.rs`; the spec's `get() -> Option<filter>` is a plain
read of the cell that `set_reload_handle` writes. -/
def getReloadHandle (cell : Option α) : Option α := cell

/-- applyWrites runs a sequence of completed `set_reload_handle` calls, in
their linearization order, against a starting cell state. The `RwLock` in
the source makes each write and each read atomic, so a concurrent history
is modelled as the interleaving of whole operations. -/
def applyWrites (cell : Option α) (writes : List α) : Option α :=
  writes.foldl set_reload_handle cell

/-- SendError mirrors `tokio::sync::broadcast::error::SendError`: `send`
fails exactly when no receiver handle is alive, returning the value. -/
inductive SendError where
  | noReceivers : SendError
deriving DecidableEq, Repr

/-- RecvResult models the outcome of one `Receiver::recv` poll on the tokio
broadcast channel instantiated in `src/finstream/src/main.rs`:
a delivered event, a lag report carrying the number of skipped messages, or
`pending` (the call would suspend because no message is buffered past the
cursor). -/
inductive RecvResult where
  | event (e : SysEvent) : RecvResult
  | lagged (n : Nat) : RecvResult
  | pending : RecvResult

/-- isLagged tests whether a receive outcome is a lag report. -/
def RecvResult.isLagged : RecvResult → Bool
  | RecvResult.lagged _ => true
  | _ => false

/-- Receiver models one `broadcast::Receiver`: an independent cursor giving
the index of the next message to read in the channel's publish history. -/
structure Receiver where
  cursor : Nat
deriving DecidableEq, Repr

/-- BusState models the `tokio::sync::broadcast` channel of
`src/finstream/src/main.rs`: the fixed capacity chosen at construction, the
full publish history (of which only the last `capacity` entries are
retained in the ring buffer), and the number of live receiver handles. -/
structure BusState where
  capacity : Nat
  published : List SysEvent
  receiverCount : Nat

/-- channel models `broadcast::channel(capacity)`: a fresh bus with empty
history and one receiver handle whose cursor starts at zero. -/
def channel (capacity : Nat) : BusState × Receiver :=
  ({ capacity := capacity, published := [], receiverCount := 1 },
   { cursor := 0 })

/-- oldestIdx is the index of the oldest message still retained in the ring
buffer: everything earlier has been overwritten once the history exceeds
the capacity (Nat subtraction truncates at zero). -/
def oldestIdx (s : BusState) : Nat := s.published.length - s.capacity

/-- retained is the window of messages still held by the ring buffer. -/
def retained (s : BusState) : List SysEvent := s.published.drop (oldestIdx s)

/-- send models `broadcast::Sender::send`: it returns an error when no
receiver handle is alive (the value is dropped, not buffered), and
otherwise appends to the history — overwriting the oldest retained entry
when the buffer is at capacity — and returns the receiver count. It is a
total function: the producer never suspends. -/
def send (s : BusState) (e : SysEvent) : Except SendError (BusState × Nat) :=
  if s.receiverCount = 0 then Except.error SendError.noReceivers
  else Except.ok ({ s with published := s.published ++ [e] }, s.receiverCount)

/-- sendAll publishes a list of events in order, ignoring per-send results
(used to run scenario traces). -/
def sendAll (s : BusState) (es : List SysEvent) : BusState :=
  es.foldl
    (fun acc e =>
      match send acc e with
      | Except.ok (s2, _) => s2
      | Except.error _ => acc)
    s

/-- recv models one poll of `broadcast::Receiver::recv`: a cursor behind
the oldest retained message yields `Lagged(skipped)` and repositions the
cursor to the oldest retained message; otherwise the message at the cursor
is returned and the cursor advances; with nothing past the cursor the call
would suspend (`pending`, cursor unchanged). -/
def recv (s : BusState) (r : Receiver) : RecvResult × Receiver :=
  if r.cursor < oldestIdx s then
    (RecvResult.lagged (oldestIdx s - r.cursor), { cursor := oldestIdx s })
  else if h : r.cursor < s.published.length then
    (RecvResult.event (s.published.get ⟨r.cursor, h⟩), { cursor := r.cursor + 1 })
  else (RecvResult.pending, r)

/-- AppState models the observable state built up by `main` in
`src/finstream/src/main.rs`: the broadcast channel created on line 17, the
receiver handle bound to `_rx` (alive for the whole of `main`, never read),
counters of `subscribe` and `recv` operations performed during startup, and
the log lines emitted by the initializers. -/
structure AppState where
  bus : BusState
  rxBinding : Option Receiver
  subscribeCalls : Nat
  recvCalls : Nat
  logs : List String

/-- logInit appends the "[name] module initialized" log line that a
subsystem `init` function emits; it is the whole effect of `sysbus::init`
in `src/sysbus/src/lib.rs`. `fn init()` takes no arguments, and the channel
of `main.rs` lives in local bindings (`_bus_tx`, `_rx`) that are passed to
no callee, so no `init` can reach the bus: the `init` functions whose
bodies are outside `src/` (logger, confman, db, servman, climan, assman,
telemetry, marketstatus, primon) are therefore modelled, like
`sysbus::init`, as pure log-appending steps with no access to the bus
state. -/
def logInit (name : String) (s : AppState) : AppState :=
  { s with logs := s.logs ++ ["[" ++ name ++ "] module initialized"] }

/-- mainStartup models the startup sequence of `main` in
`src/finstream/src/main.rs`: create the broadcast channel with capacity
1024, bind the sender to the unused `_bus_tx` and the receiver to `_rx`,
call `bootstrap`, then call the ten subsystem `init` functions in order.
No step subscribes to the bus and no step reads from `_rx`. -/
def mainStartup : AppState :=
  let created := channel 1024
  let s0 : AppState :=
    { bus := created.1, rxBinding := some created.2,
      subscribeCalls := 0, recvCalls := 0,
      logs := ["FinStream Engine Core Starting...",
               "FinStream bootstrap sequence started"] }
  ["logger", "confman", "db", "servman", "climan", "assman",
   "telemetry", "marketstatus", "primon", "sysbus"].foldl
    (fun s name => logInit name s) s0

/-- subsystemInitCount is the number of subsystem `init` calls `main`
performs after `bootstrap`. -/
def subsystemInitCount : Nat := 10

theorem collectField_append_of_ne (kvs : List (String × Json)) (k f : String)
    (v : Json) (hne : k ≠ f) :
    collectField (kvs ++ [(k, v)]) f = collectField kvs f := by
  unfold collectField
  rw [List.foldl_append]
  cases hacc : List.foldl _ (Except.ok none) kvs with
  | error e => simp
  | ok found => simp [hne]

/-- C1: for every `SysEvent` value of every variant — `ConfigReloaded`,
`MarketStatus`, `AssetTransition` with and without a reason, and
`TelemetryTick` — deserializing the serialization of the event yields the
event back. -/
theorem deserialize_serialize_roundtrip :
    ∀ e : SysEvent, deserialize (serialize e) = Except.ok e := by
  intro e
  cases e with
  | ConfigReloaded => rfl
  | MarketStatus label => rfl
  | AssetTransition id state reason => cases reason <;> rfl
  | TelemetryTick value => rfl

/-- C4 counterexample: the payload-free variant `ConfigReloaded` does not
serialize to a `{type, payload}` structure — its serialization is the
object `{type: "ConfigReloaded"}` with no `payload` field at all, because
serde's adjacent tagging omits the content field for unit variants. -/
theorem configReloaded_serializes_without_payload :
    serialize SysEvent.ConfigReloaded = Json.obj [("type", Json.str "ConfigReloaded")] ∧
    hasField (serialize SysEvent.ConfigReloaded) "payload" = false :=
  ⟨rfl, rfl⟩

/-- C4 amended: every `SysEvent` value serializes to a tagged object whose
`type` field holds the variant name; every variant except the payload-free
`ConfigReloaded` additionally carries a `payload` field with the
variant-specific data, while `ConfigReloaded` serializes to the tag field
alone. -/
theorem serialize_tagged_shape :
    ∀ e : SysEvent,
      (e = SysEvent.ConfigReloaded ∧
        serialize e = Json.obj [("type", Json.str (tagOf e))]) ∨
      (∃ p, serialize e = Json.obj [("type", Json.str (tagOf e)), ("payload", p)] ∧
        hasField (serialize e) "payload" = true) := by
  intro e
  cases e with
  | ConfigReloaded => exact Or.inl ⟨rfl, rfl⟩
  | MarketStatus label => exact Or.inr ⟨Json.str label, rfl, by simp [serialize, hasField]⟩
  | AssetTransition id state reason =>
      exact Or.inr ⟨Json.obj [("id", Json.str id), ("state", Json.str state),
        ("reason", serOptStr reason)], rfl, by simp [serialize, hasField]⟩
  | TelemetryTick value => exact Or.inr ⟨value, rfl, by simp [serialize, hasField]⟩

/-- C5 counterexample: deserialization has an error condition other than an
unrecognized tag or a missing required field — the input
`{type: "MarketStatus", payload: 3}` carries a recognized tag and no field
is missing, yet deserialization fails with a type error (serde rejects the
number where the string payload is expected). -/
theorem deserialize_fails_beyond_tag_and_missing_field :
    deserialize (Json.obj [("type", Json.str "MarketStatus"), ("payload", Json.num 3)])
      = Except.error (DeError.invalidType "string") ∧
    DeError.isTagOrFieldError (DeError.invalidType "string") = false :=
  ⟨rfl, rfl⟩

theorem collectField_cons_of_ne (kv : String × Json) (t : List (String × Json))
    (f : String) (h : kv.1 ≠ f) :
    collectField (kv :: t) f = collectField t f := by
  unfold collectField
  simp only [List.foldl_cons]
  congr 1
  show (if kv.1 = f then Except.ok (some kv.2) else Except.ok none)
      = (Except.ok none : Except DeError (Option Json))
  exact if_neg h

theorem collectField_no_key (f : String) :
    ∀ kvs : List (String × Json), (∀ kv ∈ kvs, kv.1 ≠ f) →
      collectField kvs f = Except.ok none := by
  intro kvs
  induction kvs with
  | nil => intro h; rfl
  | cons kv t ih =>
      intro h
      rw [collectField_cons_of_ne kv t f (h kv (List.mem_cons_self kv t))]
      exact ih (fun kv2 hm => h kv2 (List.mem_cons_of_mem kv hm))

/-- C5 amended: deserialization fails with an error naming the unexpected
tag when the input carries an unrecognized tag, and with an error naming
the missing field when a required field is absent — the `type` tag on any
object lacking it, the `payload` of any non-unit variant, and the required
`id` and `state` fields of the `AssetTransition` payload; in addition it
fails when a field has the wrong type (any non-string `MarketStatus`
payload is rejected with a type error). Every failure is returned to the
caller as an error value, never silently dropped. -/
theorem deserialize_error_conditions :
    (∀ (tag : String) (p : Option Json),
      tag ≠ "ConfigReloaded" → tag ≠ "MarketStatus" →
      tag ≠ "AssetTransition" → tag ≠ "TelemetryTick" →
      deVariant tag p = Except.error (DeError.unknownVariant tag)) ∧
    (∀ kvs : List (String × Json), (∀ kv ∈ kvs, kv.1 ≠ "type") →
      (∃ o, collectField kvs "payload" = Except.ok o) →
      deserialize (Json.obj kvs) = Except.error (DeError.missingField "type")) ∧
    deVariant "MarketStatus" none = Except.error (DeError.missingField "payload") ∧
    deVariant "AssetTransition" none = Except.error (DeError.missingField "payload") ∧
    deVariant "TelemetryTick" none = Except.error (DeError.missingField "payload") ∧
    (∀ pkvs : List (String × Json),
      collectField pkvs "id" = Except.ok none →
      (∃ o1, collectField pkvs "state" = Except.ok o1) →
      (∃ o2, collectField pkvs "reason" = Except.ok o2) →
      deAssetPayload pkvs = Except.error (DeError.missingField "id")) ∧
    (∀ (pkvs : List (String × Json)) (idv : String),
      collectField pkvs "id" = Except.ok (some (Json.str idv)) →
      collectField pkvs "state" = Except.ok none →
      (∃ o2, collectField pkvs "reason" = Except.ok o2) →
      deAssetPayload pkvs = Except.error (DeError.missingField "state")) ∧
    (∀ j : Json, (∀ s, j ≠ Json.str s) →
      deVariant "MarketStatus" (some j) = Except.error (DeError.invalidType "string")) := by
  refine ⟨?_, ?_, rfl, rfl, rfl, ?_, ?_, ?_⟩
  · intro tag p h1 h2 h3 h4
    unfold deVariant
    rw [if_neg h1, if_neg h2, if_neg h3, if_neg h4]
  · rintro kvs hno ⟨o, ho⟩
    simp only [deserialize]
    rw [collectField_no_key "type" kvs hno, ho]
    rfl
  · rintro pkvs hid ⟨o1, h1⟩ ⟨o2, h2⟩
    unfold deAssetPayload
    rw [hid, h1, h2]
    rfl
  · rintro pkvs idv hid hst ⟨o2, h2⟩
    unfold deAssetPayload
    rw [hid, hst, h2]
    rfl
  · intro j h
    cases j with
    | null => rfl
    | bool b => rfl
    | num n => rfl
    | str s => exact absurd rfl (h s)
    | arr elems => rfl
    | obj fields => rfl

/-- C5 witness: the amended error-condition theorem instantiated on
concrete inputs — the unrecognized tag "Bogus"; an object carrying only a
payload and no `type`; absent payloads for the three non-unit variants; an
`AssetTransition` payload missing `id`, and one missing `state`; and a
numeric `MarketStatus` payload. -/
theorem deserialize_error_conditions_witness :
    deVariant "Bogus" none = Except.error (DeError.unknownVariant "Bogus") ∧
    deserialize (Json.obj [("payload", Json.num 1)])
      = Except.error (DeError.missingField "type") ∧
    deVariant "MarketStatus" none = Except.error (DeError.missingField "payload") ∧
    deAssetPayload [("state", Json.str "halted")]
      = Except.error (DeError.missingField "id") ∧
    deAssetPayload [("id", Json.str "AAPL")]
      = Except.error (DeError.missingField "state") ∧
    deVariant "MarketStatus" (some (Json.num 3))
      = Except.error (DeError.invalidType "string") := by
  refine ⟨?_, ?_, ?_, ?_, ?_, ?_⟩
  · exact deserialize_error_conditions.1 "Bogus" none
      (by decide) (by decide) (by decide) (by decide)
  · exact deserialize_error_conditions.2.1 [("payload", Json.num 1)]
      (by decide) ⟨some (Json.num 1), rfl⟩
  · exact deserialize_error_conditions.2.2.1
  · exact deserialize_error_conditions.2.2.2.2.2.1 [("state", Json.str "halted")]
      rfl ⟨some (Json.str "halted"), rfl⟩ ⟨none, rfl⟩
  · exact deserialize_error_conditions.2.2.2.2.2.2.1 [("id", Json.str "AAPL")] "AAPL"
      rfl rfl ⟨none, rfl⟩
  · exact deserialize_error_conditions.2.2.2.2.2.2.2 (Json.num 3)
      (fun s h => by injection h)

/-- C9: the event type is a closed tagged variant — every `SysEvent` value
is `ConfigReloaded` (no payload), a `MarketStatus` carrying a text label,
an `AssetTransition` carrying an id, a state and an optional reason, or a
`TelemetryTick` carrying a structured value — and deserialization only ever
accepts one of those four tags, so no other variant can be constructed or
received. -/
theorem sysEvent_closed :
    (∀ e : SysEvent,
      e = SysEvent.ConfigReloaded ∨
      (∃ s, e = SysEvent.MarketStatus s) ∨
      (∃ i st r, e = SysEvent.AssetTransition i st r) ∨
      (∃ v, e = SysEvent.TelemetryTick v)) ∧
    (∀ (tag : String) (p : Option Json) (e : SysEvent),
      deVariant tag p = Except.ok e →
        tag = "ConfigReloaded" ∨ tag = "MarketStatus" ∨
        tag = "AssetTransition" ∨ tag = "TelemetryTick") := by
  constructor
  · intro e
    cases e with
    | ConfigReloaded => exact Or.inl rfl
    | MarketStatus label => exact Or.inr (Or.inl ⟨label, rfl⟩)
    | AssetTransition id state reason => exact Or.inr (Or.inr (Or.inl ⟨id, state, reason, rfl⟩))
    | TelemetryTick value => exact Or.inr (Or.inr (Or.inr ⟨value, rfl⟩))
  · intro tag p e h
    unfold deVariant at h
    split_ifs at h with h1 h2 h3 h4
    · exact Or.inl h1
    · exact Or.inr (Or.inl h2)
    · exact Or.inr (Or.inr (Or.inl h3))
    · exact Or.inr (Or.inr (Or.inr h4))

/-- C9 witness: the closedness theorem applied to the concrete event
`ConfigReloaded` and to a successful deserialization with the
"ConfigReloaded" tag. -/
theorem sysEvent_closed_witness :
    (SysEvent.ConfigReloaded = SysEvent.ConfigReloaded ∨
      (∃ s, SysEvent.ConfigReloaded = SysEvent.MarketStatus s) ∨
      (∃ i st r, SysEvent.ConfigReloaded = SysEvent.AssetTransition i st r) ∨
      (∃ v, SysEvent.ConfigReloaded = SysEvent.TelemetryTick v)) ∧
    ("ConfigReloaded" = "ConfigReloaded" ∨ "ConfigReloaded" = "MarketStatus" ∨
      "ConfigReloaded" = "AssetTransition" ∨ "ConfigReloaded" = "TelemetryTick") :=
  ⟨sysEvent_closed.1 SysEvent.ConfigReloaded,
   sysEvent_closed.2 "ConfigReloaded" none SysEvent.ConfigReloaded rfl⟩

/-- C10: deserialization silently ignores fields beyond the declared ones —
appending an entry with any key other than `type`/`payload` to the
top-level object, or any key other than `id`/`state`/`reason` to an
`AssetTransition` payload object, leaves the result of deserialization
unchanged (in particular a succeeding input still succeeds with the same
event). -/
theorem deserialize_ignores_unknown_fields
    (kvs pkvs : List (String × Json)) (k k2 : String) (v v2 : Json)
    (h1 : k ≠ "type") (h2 : k ≠ "payload")
    (h3 : k2 ≠ "id") (h4 : k2 ≠ "state") (h5 : k2 ≠ "reason") :
    deserialize (Json.obj (kvs ++ [(k, v)])) = deserialize (Json.obj kvs) ∧
    deAssetPayload (pkvs ++ [(k2, v2)]) = deAssetPayload pkvs := by
  constructor
  · simp only [deserialize]
    rw [collectField_append_of_ne kvs k "type" v h1,
        collectField_append_of_ne kvs k "payload" v h2]
  · unfold deAssetPayload
    rw [collectField_append_of_ne pkvs k2 "id" v2 h3,
        collectField_append_of_ne pkvs k2 "state" v2 h4,
        collectField_append_of_ne pkvs k2 "reason" v2 h5]

/-- C10 witness: an `AssetTransition` input carrying an extra `extra` key
inside the payload and an extra `note` key at the top level deserializes
successfully to the exact event, the unknown fields being ignored. -/
theorem deserialize_ignores_unknown_fields_witness :
    deserialize (Json.obj
        ([("type", Json.str "AssetTransition"),
          ("payload", Json.obj
            ([("id", Json.str "AAPL"), ("state", Json.str "halted"),
              ("reason", Json.str "circuit-breaker")] ++ [("extra", Json.num 1)]))]
         ++ [("note", Json.str "ignored")]))
      = Except.ok (SysEvent.AssetTransition "AAPL" "halted" (some "circuit-breaker")) := by
  have h := deserialize_ignores_unknown_fields
    [("type", Json.str "AssetTransition"),
     ("payload", Json.obj
       ([("id", Json.str "AAPL"), ("state", Json.str "halted"),
         ("reason", Json.str "circuit-breaker")] ++ [("extra", Json.num 1)]))]
    [("id", Json.str "AAPL"), ("state", Json.str "halted"),
     ("reason", Json.str "circuit-breaker")]
    "note" "extra" (Json.str "ignored") (Json.num 1)
    (by decide) (by decide) (by decide) (by decide) (by decide)
  exact h.1.trans (h.2.symm.trans rfl)

/-- scenarioEvents is the spec's E1..E6 publish sequence, realized as
distinct `MarketStatus` events. -/
def scenarioEvents : List SysEvent :=
  [SysEvent.MarketStatus "E1", SysEvent.MarketStatus "E2", SysEvent.MarketStatus "E3",
   SysEvent.MarketStatus "E4", SysEvent.MarketStatus "E5", SysEvent.MarketStatus "E6"]

/-- c2Bus is the bus state of the spec's lag scenario: a channel of
capacity 4 (one subscriber present from construction, not yet reading)
after publishing E1..E6. -/
def c2Bus : BusState := sendAll (channel 4).1 scenarioEvents

/-- C2 counterexample: in the capacity-4 scenario with E1..E6 published and
the subscriber's cursor still at 0, the first `next()` returns `Lagged(2)`
but the second returns E3 — the oldest entry still retained (the buffer
holds E3..E6) — not E5 as the claim expects. -/
theorem lag_scenario_resumes_at_E3 :
    (recv c2Bus { cursor := 0 }).1 = RecvResult.lagged 2 ∧
    (recv c2Bus (recv c2Bus { cursor := 0 }).2).1
      = RecvResult.event (SysEvent.MarketStatus "E3") ∧
    RecvResult.event (SysEvent.MarketStatus "E3")
      ≠ RecvResult.event (SysEvent.MarketStatus "E5") := by
  refine ⟨rfl, rfl, ?_⟩
  intro h
  injection h with h1
  injection h1 with h2
  exact absurd h2 (by decide)

/-- C2 amended: a subscription whose cursor has fallen behind the oldest
retained entry gets `Lagged(skippedCount)` from `next()` exactly once — the
cursor is repositioned to the oldest retained entry, so the following
`next()` is not a lag report but delivers that oldest entry. In the
capacity-4 scenario with E1..E6 published before any read, the first three
`next()` calls therefore return `Lagged(2)`, then E3, then E4 (E1–E2
evicted; the buffer retains E3..E6). -/
theorem lagged_reported_once_then_oldest (s : BusState) (r : Receiver)
    (hlag : r.cursor < oldestIdx s) (hsome : oldestIdx s < s.published.length) :
    recv s r = (RecvResult.lagged (oldestIdx s - r.cursor), { cursor := oldestIdx s }) ∧
    RecvResult.isLagged (recv s { cursor := oldestIdx s }).1 = false ∧
    (recv s { cursor := oldestIdx s }).1
      = RecvResult.event (s.published.get ⟨oldestIdx s, hsome⟩) ∧
    (recv s { cursor := oldestIdx s }).2 = { cursor := oldestIdx s + 1 } := by
  have hnot : ¬ oldestIdx s < oldestIdx s := lt_irrefl _
  constructor
  · unfold recv
    rw [if_pos hlag]
  · unfold recv
    rw [if_neg hnot, dif_pos hsome]
    exact ⟨rfl, rfl, rfl⟩

/-- C2 witness: the amended lag theorem instantiated on the concrete
capacity-4 scenario: `next()` yields `Lagged(2)` repositioning the cursor
to index 2, then E3 (and an advance to index 3; one more computation step
gives E4). -/
theorem lagged_reported_once_then_oldest_witness :
    ({ cursor := 0 } : Receiver).cursor < oldestIdx c2Bus ∧
    oldestIdx c2Bus < c2Bus.published.length ∧
    recv c2Bus { cursor := 0 } = (RecvResult.lagged 2, { cursor := 2 }) ∧
    (recv c2Bus { cursor := oldestIdx c2Bus }).1
      = RecvResult.event (SysEvent.MarketStatus "E3") ∧
    (recv c2Bus { cursor := 3 }).1 = RecvResult.event (SysEvent.MarketStatus "E4") := by
  have h := lagged_reported_once_then_oldest c2Bus { cursor := 0 }
    (by decide) (by decide)
  exact ⟨by decide, by decide, h.1.trans rfl, h.2.2.1.trans rfl, rfl⟩

/-- zeroReceiverBus is a broadcast channel state with no live receiver
handle (as after the sole receiver of `main.rs` would be dropped). -/
def zeroReceiverBus : BusState :=
  { capacity := 4, published := [], receiverCount := 0 }

/-- C3 counterexample: publishing on a bus with zero subscriptions does not
return Ok — `tokio::sync::broadcast::Sender::send` returns a `SendError`
when no receiver handle is alive, and the value is dropped rather than
retained. -/
theorem publish_with_zero_receivers_errs :
    zeroReceiverBus.receiverCount = 0 ∧
    send zeroReceiverBus (SysEvent.MarketStatus "E1")
      = Except.error SendError.noReceivers :=
  ⟨rfl, rfl⟩

/-- C3 amended: `publish` never blocks (it is a total, non-suspending
operation): with at least one live subscription it returns Ok, appending
the event, keeping at most `capacity` entries retained, and when the
buffer is at capacity it evicts the oldest retained entry to make room;
with zero subscriptions, however, it returns a `SendError` instead of Ok
(the event is dropped, not retained). -/
theorem publish_nonblocking_evicts_oldest (s : BusState) (e : SysEvent)
    (hrecv : 0 < s.receiverCount) (hcap : 0 < s.capacity) :
    send s e = Except.ok ({ s with published := s.published ++ [e] }, s.receiverCount) ∧
    (retained { s with published := s.published ++ [e] }).length ≤ s.capacity ∧
    (s.capacity ≤ s.published.length →
      retained { s with published := s.published ++ [e] }
        = (retained s).drop 1 ++ [e]) := by
  refine ⟨?_, ?_, ?_⟩
  · unfold send
    rw [if_neg (Nat.pos_iff_ne_zero.mp hrecv)]
  · unfold retained oldestIdx
    simp only [List.length_drop]
    omega
  · intro hfull
    unfold retained oldestIdx
    simp only [List.length_append, List.length_singleton]
    have hle : s.published.length + 1 - s.capacity ≤ s.published.length := by omega
    rw [List.drop_append_of_le_length hle, List.drop_drop]
    have heq : s.published.length + 1 - s.capacity
        = s.published.length - s.capacity + 1 := by omega
    rw [heq]

/-- fullBus is a capacity-2 bus at capacity (E1, E2 retained) with one
live subscription, used to instantiate the publish theorem. -/
def fullBus : BusState :=
  { capacity := 2,
    published := [SysEvent.MarketStatus "E1", SysEvent.MarketStatus "E2"],
    receiverCount := 1 }

/-- fullBusAfter is `fullBus` after E3 has been appended. -/
def fullBusAfter : BusState :=
  { fullBus with published := fullBus.published ++ [SysEvent.MarketStatus "E3"] }

/-- C3 witness: the amended publish theorem instantiated on a full
capacity-2 bus holding E1, E2 with one live subscription: publishing E3
succeeds and the retained window becomes E2, E3 (E1 evicted). -/
theorem publish_nonblocking_evicts_oldest_witness :
    0 < fullBus.receiverCount ∧ 0 < fullBus.capacity ∧
    fullBus.capacity ≤ fullBus.published.length ∧
    send fullBus (SysEvent.MarketStatus "E3")
      = Except.ok (fullBusAfter, fullBus.receiverCount) ∧
    retained fullBusAfter
      = (retained fullBus).drop 1 ++ [SysEvent.MarketStatus "E3"] := by
  have h := publish_nonblocking_evicts_oldest fullBus (SysEvent.MarketStatus "E3")
    (by decide) (by decide)
  exact ⟨by decide, by decide, by decide, h.1, h.2.2 (by decide)⟩

/-- C6: under any interleaving of completed `set_reload_handle` calls
(each write and each read is one atomic step, the atomicity the source's
`RwLock` provides), a read of the cell observes either the value the cell
held before the writes — in full — or the complete argument of one of the
completed `set_reload_handle` calls; it never observes a value that was
not the argument of a completed call. A read at any point of a concurrent
history is a read after the linearized prefix of writes completed so far,
which this statement quantifies over. -/
theorem reconfiguration_cell_no_partial_reads (α : Type) :
    ∀ (writes : List α) (cell : Option α),
      getReloadHandle (applyWrites cell writes) = getReloadHandle cell ∨
      ∃ h, h ∈ writes ∧ getReloadHandle (applyWrites cell writes) = some h := by
  intro writes
  induction writes with
  | nil => intro cell; exact Or.inl rfl
  | cons w ws ih =>
      intro cell
      have hstep : applyWrites cell (w :: ws) = applyWrites (some w) ws := rfl
      rcases ih (some w) with heq | ⟨h, hmem, heq⟩
      · refine Or.inr ⟨w, List.mem_cons_self w ws, ?_⟩
        rw [hstep, heq]
        rfl
      · exact Or.inr ⟨h, List.mem_cons_of_mem w hmem, by rw [hstep, heq]⟩

/-- C7: the reload cell starts out empty — a read before any
`set_reload_handle` call returns `none` — and after `set_reload_handle`
calls the read returns `some` of the most recently set value, whatever was
held before (last write wins). -/
theorem reload_handle_get_last_write (α : Type) (cell : Option α) (h0 : α)
    (writes : List α) :
    getReloadHandle (RELOAD_HANDLE_initial α) = none ∧
    getReloadHandle (set_reload_handle cell h0) = some h0 ∧
    getReloadHandle (applyWrites cell (writes ++ [h0])) = some h0 := by
  refine ⟨rfl, rfl, ?_⟩
  unfold applyWrites
  rw [List.foldl_append]
  rfl

/-- C8 counterexample: `main` does not make the bus a dependency that every
subsystem subscribes to — during the startup of
`src/finstream/src/main.rs` zero `subscribe` operations happen while ten
subsystem `init` calls run, so strictly fewer subsystems subscribed than
exist; the channel's only receiver is the `_rx` binding of line 17, which
is never read. -/
theorem startup_subscribes_fewer_than_subsystems :
    mainStartup.subscribeCalls = 0 ∧
    mainStartup.subscribeCalls < subsystemInitCount ∧
    mainStartup.recvCalls = 0 := by
  refine ⟨rfl, ?_, rfl⟩
  decide

/-- C8 amended: the bus is not wired to the subsystems at all: startup
creates the broadcast channel, binds the sender to an unused local, and
calls the subsystem initializers without passing them the bus, so no
subsystem subscribes (zero subscribe calls) and nothing is ever published;
the only receiver handle is the unread `_rx` from channel construction.
The zero-subsystem-consumer state therefore actually holds at the end of
startup, rather than being impossible by construction. -/
theorem startup_bus_unused :
    mainStartup.subscribeCalls = 0 ∧
    mainStartup.recvCalls = 0 ∧
    mainStartup.bus.receiverCount = 1 ∧
    mainStartup.rxBinding = some { cursor := 0 } ∧
    mainStartup.bus.published = [] ∧
    mainStartup.bus.capacity = 1024 ∧
    mainStartup.logs.length = 2 + subsystemInitCount := by
  refine ⟨rfl, rfl, rfl, rfl, rfl, rfl, ?_⟩
  decide
